import Mathlib

/-!
Shallow embedding of `colosseum/validators.py` (the validators of the
colosseum CSS declaration engine) and of the Choices error-message contract
its tests exercise.

Python values that can reach the validators are embedded as the inductive
`PyVal`; Python exceptions as `PyErr` (with the `ValueError`-subtyping of
`ValidationError` expressed by `PyErr.isValueError`).  A function that can
raise returns `Except PyErr PyVal`.  The unit parser `parser.units` and the
color parser `parser.color` are external collaborators (out of scope per the
spec), so the validators are parameterised over them: a parser takes a value
and either returns a parsed value or raises a `ValueError` carrying a message.

The Python builtins `float()`, `int()`, `str()` and `str.split()` are
standard-library externals; they are modelled below for the value shapes that
can occur here (no exponent/inf/nan forms of float strings, which no claim
touches).  Python floats are modelled as exact fractions `Frac` (every float
literal in the code and tests is a short decimal, exactly representable).
-/

/-- An exact fraction, modelling a Python float: `num / den` with `den`
positive.  Fractions are kept as constructed (no normalisation); every
fraction built here has the decimal-denominator form `d / 10^k`. -/
structure Frac where
  num : Int
  den : Nat
deriving DecidableEq

/-- The fraction `n / 1` of an integer. -/
def Frac.ofInt (n : Int) : Frac := ⟨n, 1⟩

/-- Numeric strict order on fractions (cross multiplication; denominators
are positive). -/
def Frac.blt (a b : Frac) : Bool := a.num * (b.den : Int) < b.num * (a.den : Int)

/-- Embedded Python values: `None`, `int`, `float`, `str`, `list`, `tuple`,
`dict`, and the unit-parser result objects: `units.Px`-style lengths and
`units.Percent`. -/
inductive PyVal where
  | none
  | int (n : Int)
  | float (f : Frac)
  | str (s : String)
  | list (xs : List PyVal)
  | tuple (xs : List PyVal)
  | dict
  | px (f : Frac)
  | percent (f : Frac)

/-- Embedded Python exceptions raised in `validators.py` or by the builtins
it calls: `ValidationError` (defined in the source as a `ValueError`
subclass), plain `ValueError`, `TypeError` and `AttributeError`. -/
inductive PyErr where
  | validationError (msg : String)
  | valueError (msg : String)
  | typeError (msg : String)
  | attributeError (msg : String)
deriving DecidableEq

/-- `str(error)` for the embedded exceptions: their message. -/
def PyErr.message : PyErr → String
  | .validationError m => m
  | .valueError m => m
  | .typeError m => m
  | .attributeError m => m

/-- `isinstance(e, ValueError)`: `ValidationError` is declared in the source
as `class ValidationError(ValueError)`, so both it and `ValueError` itself
are `ValueError`s. -/
def PyErr.isValueError : PyErr → Bool
  | .validationError _ => true
  | .valueError _ => true
  | .typeError _ => false
  | .attributeError _ => false

/-- `isinstance(e, ValidationError)`. -/
def PyErr.isValidationError : PyErr → Bool
  | .validationError _ => true
  | _ => false

/-- Multiplicity of the prime `p` in `n`, fuelled (fuel `n` suffices). -/
def padicCount (p : Nat) : Nat → Nat → Nat
  | 0, _ => 0
  | fuel + 1, n => if 2 ≤ p ∧ n ≠ 0 ∧ n % p = 0 then padicCount p fuel (n / p) + 1 else 0

/-- Left-pad a string with zeros to length `k`. -/
def padLeftZeros (k : Nat) (s : String) : String :=
  if s.length < k then String.mk (List.replicate (k - s.length) '0') ++ s else s

/-- Python `str()` of a float, for fractions with a `2^a * 5^b`-shaped
denominator (every float the code and tests handle): the decimal expansion,
e.g. `10.7`, `0.25`, `-3.0`.  Other denominators (unreachable from decimal
float literals) fall back to a fraction rendering. -/
def floatRepr (q : Frac) : String :=
  if q.den = 1 then toString q.num ++ ".0"
  else
    let k2 := padicCount 2 q.den q.den
    let k5 := padicCount 5 q.den q.den
    if 2 ^ k2 * 5 ^ k5 = q.den then
      let k := max k2 k5
      let scaled := q.num.natAbs * (10 ^ k / q.den)
      (if q.num < 0 then "-" else "") ++ toString (scaled / 10 ^ k) ++ "." ++
        padLeftZeros k (toString (scaled % 10 ^ k))
    else toString q.num ++ "/" ++ toString q.den

/-- `str()` of a colosseum unit object: `"10px"`, `"30%"` (integral values
render without a decimal point, as colosseum units store ints unchanged). -/
def unitRepr (q : Frac) (suffix : String) : String :=
  (if q.den = 1 then toString q.num else floatRepr q) ++ suffix

mutual
/-- Python `str(value)` for the embedded values. -/
def pyStr : PyVal → String
  | .none => "None"
  | .int n => toString n
  | .float q => floatRepr q
  | .str s => s
  | .list xs => "[" ++ pyStrElems xs ++ "]"
  | .tuple [x] => "(" ++ pyRepr x ++ ",)"
  | .tuple xs => "(" ++ pyStrElems xs ++ ")"
  | .dict => "\x7b\x7d"
  | .px q => unitRepr q "px"
  | .percent q => unitRepr q "%"

/-- Python `repr(value)`: as `str` but strings are quoted (containers render
their elements with `repr`). -/
def pyRepr : PyVal → String
  | .str s => "'" ++ s ++ "'"
  | v => pyStr v

/-- Comma-separated `repr`s of a container's elements. -/
def pyStrElems : List PyVal → String
  | [] => ""
  | [x] => pyRepr x
  | x :: y :: xs => pyRepr x ++ ", " ++ pyStrElems (y :: xs)
end

/-- Drop whitespace from both ends of a character list (Python
`str.strip()` / the trimming `int()` and `float()` do on strings). -/
def trimChars (cs : List Char) : List Char :=
  ((cs.dropWhile Char.isWhitespace).reverse.dropWhile Char.isWhitespace).reverse

/-- Python `s.strip()`. -/
def pyStrip (s : String) : String := String.mk (trimChars s.data)

/-- Value of a run of decimal digit characters. -/
def digitsToNat (cs : List Char) : Nat :=
  cs.foldl (fun a c => a * 10 + (c.toNat - 48)) 0

/-- Strip one optional leading sign; `true` means negative. -/
def stripSign : List Char → Bool × List Char
  | '-' :: rest => (true, rest)
  | '+' :: rest => (false, rest)
  | cs => (false, cs)

/-- Python `int(s)` on a string: optional surrounding whitespace, optional
sign, then one or more decimal digits; anything else raises `ValueError`
(returned here as `none`). -/
def pyStrToInt (s : String) : Option Int :=
  let (neg, ds) := stripSign (trimChars s.data)
  if ds ≠ [] ∧ ds.all Char.isDigit then
    let n : Int := digitsToNat ds
    some (if neg then -n else n)
  else none

/-- Split a character run at the first dot; `none` when a second dot
follows. -/
def splitOnDot (cs : List Char) : Option (List Char × Option (List Char)) :=
  let i := cs.findIdx (· = '.')
  if i = cs.length then some (cs, Option.none)
  else
    let fp := cs.drop (i + 1)
    if fp.contains '.' then Option.none else some (cs.take i, some fp)

/-- Python `float(s)` on a string: optional surrounding whitespace, optional
sign, digits with at most one dot and at least one digit.  (Exponent,
`inf` and `nan` forms are not modelled; no claim involves them.) -/
def pyStrToFloat (s : String) : Option Frac :=
  let (neg, ds) := stripSign (trimChars s.data)
  match splitOnDot ds with
  | Option.none => Option.none
  | some (ip, Option.none) =>
    if ip ≠ [] ∧ ip.all Char.isDigit then
      some ⟨(if neg then -1 else 1) * (digitsToNat ip : Int), 1⟩
    else Option.none
  | some (ip, some fp) =>
    if (ip ≠ [] ∨ fp ≠ []) ∧ ip.all Char.isDigit ∧ fp.all Char.isDigit then
      some ⟨(if neg then -1 else 1) *
        ((digitsToNat ip : Int) * (10 ^ fp.length : Nat) + (digitsToNat fp : Int)),
        10 ^ fp.length⟩
    else Option.none

/-- Truncation of a fraction toward zero: what Python `int()` does to a
float. -/
def truncTowardZero (q : Frac) : Int :=
  let m : Nat := q.num.natAbs / q.den
  if 0 ≤ q.num then (m : Int) else -(m : Int)

/-- Python `float(value)`: ints and floats pass numerically, strings are
parsed, everything else (`None`, containers, unit objects — none defines
`__float__`) raises `TypeError`.  Failure is collapsed to `none` because the
caller catches `(ValueError, TypeError)` alike. -/
def pyFloat : PyVal → Option Frac
  | .int n => some (Frac.ofInt n)
  | .float q => some q
  | .str s => pyStrToFloat s
  | _ => Option.none

/-- Python `int(value)`: ints pass, floats truncate toward zero, strings must
be integer literals, everything else raises `TypeError`.  Failure is
collapsed to `none` because the caller catches `(ValueError, TypeError)`
alike. -/
def pyInt : PyVal → Option Int
  | .int n => some n
  | .float q => some (truncTowardZero q)
  | .str s => pyStrToInt s
  | _ => Option.none

/-- A collaborator parser (the spec's unit parser `parser.units` and color
parser `parser.color`): returns a parsed value or raises a `ValueError`
carrying a message. -/
def PyParser : Type := PyVal → Except String PyVal

/-- The numeric type handed to `_numeric_validator` (`float` for `is_number`,
`int` for `is_integer`). -/
inductive NumType where
  | float
  | int

/-- `numeric_type.__name__`. -/
def NumType.name : NumType → String
  | .float => "float"
  | .int => "int"

/-- `numeric_type(num_value)`: the coercion call, yielding a value of that
type or failing (with `ValueError` or `TypeError`, both caught by the
caller). -/
def NumType.coerce : NumType → PyVal → Option PyVal
  | .float, v => (pyFloat v).map PyVal.float
  | .int, v => (pyInt v).map PyVal.int

/-- Numeric reading of an (already coerced) `int` or `float` value, for the
`<`/`>` bound comparisons. -/
def pvFrac : PyVal → Frac
  | .int n => Frac.ofInt n
  | .float q => q
  | _ => Frac.ofInt 0

/-- Python `str()` of a bound argument (bounds are plain numbers; an
integral bound renders as an int, as in the code's own uses). -/
def boundStr (m : Frac) : String :=
  if m.den = 1 then toString m.num else floatRepr m

/-- `_numeric_validator(num_value, numeric_type, min_value, max_value)`:
coerce (failure caught and re-raised as `ValidationError` naming the value
and the type), then the strict `<` min check and strict `>` max check, each
raising `ValidationError` naming the bound; otherwise return the coerced
value. -/
def _numeric_validator (num_value : PyVal) (numeric_type : NumType)
    (min_value max_value : Option Frac) : Except PyErr PyVal :=
  match numeric_type.coerce num_value with
  | Option.none =>
    Except.error (PyErr.validationError
      ("Cannot coerce " ++ pyStr num_value ++ " to " ++ numeric_type.name))
  | some nv =>
    if min_value.any (fun m => Frac.blt (pvFrac nv) m) then
      Except.error (PyErr.validationError
        ("Value " ++ pyStr nv ++ " below minimum value " ++ boundStr (min_value.getD (Frac.ofInt 0))))
    else if max_value.any (fun m => Frac.blt m (pvFrac nv)) then
      Except.error (PyErr.validationError
        ("Value " ++ pyStr nv ++ " above maximum value " ++ boundStr (max_value.getD (Frac.ofInt 0))))
    else Except.ok nv

/-- The result of calling `is_number`/`is_integer`: Python returns either the
validated value (or raises) — immediate mode — or a one-argument validator
closure. -/
inductive NumResult where
  | immediate (r : Except PyErr PyVal)
  | validator (f : PyVal → Except PyErr PyVal)

/-- Whether a `NumResult` is the immediate-mode shape. -/
def NumResult.isImmediate : NumResult → Bool
  | .immediate _ => true
  | .validator _ => false

/-- `is_number(value=None, min_value=None, max_value=None)`: builds the
float validator over the given bounds; applies it at once when both bounds
are `None`, else returns it. -/
def is_number (value : PyVal := PyVal.none) (min_value : Option Frac := Option.none)
    (max_value : Option Frac := Option.none) : NumResult :=
  let validator := fun num_value => _numeric_validator num_value NumType.float min_value max_value
  if min_value = Option.none ∧ max_value = Option.none then
    NumResult.immediate (validator value)
  else NumResult.validator validator

/-- `is_number.description`. -/
def is_number.description : String := "<number>"

/-- `is_integer(value=None, min_value=None, max_value=None)`: as `is_number`
with the int validator. -/
def is_integer (value : PyVal := PyVal.none) (min_value : Option Frac := Option.none)
    (max_value : Option Frac := Option.none) : NumResult :=
  let validator := fun num_value => _numeric_validator num_value NumType.int min_value max_value
  if min_value = Option.none ∧ max_value = Option.none then
    NumResult.immediate (validator value)
  else NumResult.validator validator

/-- `is_integer.description`. -/
def is_integer.description : String := "<integer>"

/-- `is_length(value)`: `parser.units(value)`, with a raised `ValueError`
caught and re-raised as `ValidationError(str(error))`. -/
def is_length (units : PyParser) (value : PyVal) : Except PyErr PyVal :=
  match units value with
  | Except.ok v => Except.ok v
  | Except.error msg => Except.error (PyErr.validationError msg)

/-- `is_length.description`. -/
def is_length.description : String := "<length>"

/-- `isinstance(value, units.Percent)`. -/
def PyVal.isPercent : PyVal → Bool
  | .percent _ => true
  | _ => false

/-- `is_percentage(value)`: parse with `parser.units` (wrapping `ValueError`
as `ValidationError`), then require the result be a `units.Percent`
instance, else raise `ValidationError` naming the value. -/
def is_percentage (units : PyParser) (value : PyVal) : Except PyErr PyVal :=
  match units value with
  | Except.error msg => Except.error (PyErr.validationError msg)
  | Except.ok v =>
    if v.isPercent then Except.ok v
    else Except.error (PyErr.validationError ("Value " ++ pyStr v ++ " is not a Percent unit"))

/-- `is_percentage.description`. -/
def is_percentage.description : String := "<percentage>"

/-- `is_color(value)`: `parser.color(value)`, with a raised `ValueError`
caught and re-raised as `ValidationError(str(error))`. -/
def is_color (color : PyParser) (value : PyVal) : Except PyErr PyVal :=
  match color value with
  | Except.ok v => Except.ok v
  | Except.error msg => Except.error (PyErr.validationError msg)

/-- `is_color.description`. -/
def is_color.description : String := "<color>"

/-- Python `value.split()` on a string: split on whitespace runs, producing
no empty tokens.  `acc` holds the current token's characters reversed. -/
def splitWsAux : List Char → List Char → List String
  | [], acc => if acc = [] then [] else [String.mk acc.reverse]
  | c :: cs, acc =>
    if c.isWhitespace then
      if acc = [] then splitWsAux cs [] else String.mk acc.reverse :: splitWsAux cs []
    else splitWsAux cs (c :: acc)

/-- Python `s.split()`. -/
def pySplitWs (s : String) : List String := splitWsAux s.data []

/-- `isinstance(value, Sequence) and not isinstance(value, str)`: of the
embedded values, lists, tuples and strings are `collections.Sequence`s. -/
def isNonStrSequence : PyVal → Bool
  | .list _ => true
  | .tuple _ => true
  | _ => false

/-- Python type name of a value, for `AttributeError` messages. -/
def pyTypeName : PyVal → String
  | .none => "NoneType"
  | .int _ => "int"
  | .float _ => "float"
  | .str _ => "str"
  | .list _ => "list"
  | .tuple _ => "tuple"
  | .dict => "dict"
  | .px _ => "Px"
  | .percent _ => "Percent"

/-- The `values` computed at the head of `is_border_spacing`: the sequence
itself for a non-string sequence, a 1-tuple for an `int`/`float`, the
stripped whitespace-split tokens for a string, and for any other value the
`AttributeError` that `value.split()` raises. -/
def borderSpacingValues (value : PyVal) : Except PyErr (List PyVal) :=
  if isNonStrSequence value then
    match value with
    | .list xs => Except.ok xs
    | .tuple xs => Except.ok xs
    | _ => Except.ok []
  else
    match value with
    | .int n => Except.ok [PyVal.int n]
    | .float q => Except.ok [PyVal.float q]
    | .str s => Except.ok ((pySplitWs s).map (fun x => PyVal.str (pyStrip x)))
    | v =>
      Except.error (PyErr.attributeError
        ("'" ++ pyTypeName v ++ "' object has no attribute 'split'"))

/-- `try: ... except ValueError as error: raise ValidationError(str(error))`
around a computation: a raised `ValueError` (or subclass, so also
`ValidationError`) is re-raised as `ValidationError` with the same message;
other exceptions propagate. -/
def catchValueError (r : Except PyErr PyVal) : Except PyErr PyVal :=
  match r with
  | Except.error e =>
    if e.isValueError then Except.error (PyErr.validationError e.message)
    else Except.error e
  | Except.ok v => Except.ok v

/-- `is_border_spacing(value)`: normalise to a token list (see
`borderSpacingValues`); 1 token returns a 1-tuple of `is_length` on it, 2
tokens a 2-tuple (horizontal, vertical) of `is_length` on each — in both
cases inside a `try` re-raising `ValueError` as `ValidationError` — and any
other count raises
`ValidationError('Should provide 1 or 2 <length> values!')`. -/
def is_border_spacing (units : PyParser) (value : PyVal) : Except PyErr PyVal :=
  match borderSpacingValues value with
  | Except.error e => Except.error e
  | Except.ok values =>
    match values with
    | [a] => catchValueError ((is_length units a).map (fun h => PyVal.tuple [h]))
    | [a, b] =>
      catchValueError ((is_length units a).bind (fun h =>
        (is_length units b).map (fun w => PyVal.tuple [h, w])))
    | _ => Except.error (PyErr.validationError "Should provide 1 or 2 <length> values!")

/-- `is_border_spacing.description`. -/
def is_border_spacing.description : String := "<length> <length>?"

/-- A concrete unit parser obeying the collaborator contract of the spec
(`parse_units` returns a length or percent value, raising `ValueError` on
unparseable input), used to instantiate the parser-generic theorems at
concrete inputs. -/
def sampleUnits : PyParser := fun v =>
  match v with
  | .int n => Except.ok (PyVal.px (Frac.ofInt n))
  | .px q => Except.ok (PyVal.px q)
  | .percent q => Except.ok (PyVal.percent q)
  | .str s =>
    match pyStrToInt s with
    | some n => Except.ok (PyVal.px (Frac.ofInt n))
    | Option.none => Except.error ("Unknown size " ++ s)
  | w => Except.error ("Unknown size " ++ pyStr w)

/-- A concrete color parser obeying the collaborator contract of the spec,
used to instantiate the parser-generic theorems at concrete inputs. -/
def sampleColor : PyParser := fun v =>
  match v with
  | .str s => if s = "#112233" then Except.ok (PyVal.str s) else Except.error ("Unknown color " ++ s)
  | w => Except.error ("Unknown color " ++ pyStr w)

/-- Whether a validator call finished without raising, or raised a
`ValidationError` (as opposed to some other exception). -/
def errOnlyValidation : Except PyErr PyVal → Bool
  | Except.error e => e.isValidationError
  | Except.ok _ => true

/-- The three input shapes `is_border_spacing` is written for: a non-string
sequence, an `int`/`float`, or a string. -/
def borderShapeOK : PyVal → Bool
  | .list _ => true
  | .tuple _ => true
  | .int _ => true
  | .float _ => true
  | .str _ => true
  | _ => false

/-- Whether normalising to a token list succeeded. -/
def borderValuesOk : Except PyErr (List PyVal) → Bool
  | Except.ok _ => true
  | Except.error _ => false

/-- Lexicographic order on character lists by code point. -/
def charListLe : List Char → List Char → Bool
  | [], _ => true
  | _ :: _, [] => false
  | a :: as, b :: bs =>
    if a.toNat < b.toNat then true
    else if b.toNat < a.toNat then false
    else charListLe as bs

/-- Lexicographic order on strings by code point (Python string `<`). -/
def strLe (a b : String) : Bool := charListLe a.data b.data

/-- Insert a string into a sorted list of strings. -/
def insertSorted (s : String) : List String → List String
  | [] => [s]
  | t :: ts => if strLe s t then s :: t :: ts else t :: insertSorted s ts

/-- Insertion sort of strings in ascending lexicographic order. -/
def sortStrings : List String → List String
  | [] => []
  | s :: ss => insertSorted s (sortStrings ss)

/-- Modelled from the spec: the token a literal constant contributes to the
Choices error message — its keyword/`none` token (`colosseum/constants.py`,
where `Choices` lives, is not among the given source files). -/
def constantToken : PyVal → String
  | PyVal.none => "none"
  | PyVal.str s => s
  | v => pyStr v

/-- Modelled from the spec: the sorted list of legal-form tokens of a
`Choices` — each validator contributes its `description` token, each
constant its keyword/`none` token, and the explicit defaulting constants are
included in the same alphabetically sorted list (`colosseum/constants.py`,
where `Choices` lives, is not among the given source files). -/
def choicesValidValueTokens (constants : List PyVal) (validatorDescriptions : List String)
    (explicitDefaulting : List String) : List String :=
  sortStrings (constants.map constantToken ++ validatorDescriptions ++ explicitDefaulting)

/-- Modelled from the spec: the exact message `Choices.validate` fails with —
`Invalid value '<value>' for CSS property '<name>'; Valid values are: ...`
with the sorted tokens comma-joined (`colosseum/constants.py`, where
`Choices` lives, is not among the given source files). -/
def choicesErrorMessage (name value : String) (tokens : List String) : String :=
  "Invalid value '" ++ value ++ "' for CSS property '" ++ name ++
    "'; Valid values are: " ++ String.intercalate ", " tokens

lemma is_length_onlyValidation (units : PyParser) (v : PyVal) :
    errOnlyValidation (is_length units v) = true := by
  cases h : units v <;> simp [is_length, h, errOnlyValidation, PyErr.isValidationError]

lemma errOnly_map (r : Except PyErr PyVal) (f : PyVal → PyVal)
    (h : errOnlyValidation r = true) : errOnlyValidation (r.map f) = true := by
  cases r with
  | error e => simpa [Except.map, errOnlyValidation] using h
  | ok v => simp [Except.map, errOnlyValidation]

lemma errOnly_bind (r : Except PyErr PyVal) (f : PyVal → Except PyErr PyVal)
    (h : errOnlyValidation r = true) (hf : ∀ a, errOnlyValidation (f a) = true) :
    errOnlyValidation (r.bind f) = true := by
  cases r with
  | error e => simpa [Except.bind, errOnlyValidation] using h
  | ok v => simpa [Except.bind, errOnlyValidation] using hf v

lemma catchValueError_of_onlyValidation (r : Except PyErr PyVal)
    (h : errOnlyValidation r = true) : catchValueError r = r := by
  cases r with
  | ok v => rfl
  | error e =>
    cases e <;> simp_all [errOnlyValidation, PyErr.isValidationError, catchValueError,
      PyErr.isValueError, PyErr.message]

/-- C1: `is_border_spacing` accepts exactly a non-string sequence, a single
int/float, or a whitespace-separated string (the shapes on which token
normalisation succeeds); the input is split into tokens, and with 1 token it
returns a 1-tuple of `is_length` on it, with 2 tokens a 2-tuple
(horizontal, vertical) of `is_length` on each, and with any other token
count it raises `ValidationError` with the exact message
`Should provide 1 or 2 <length> values!`. -/
theorem is_border_spacing_token_rule (units : PyParser) (v : PyVal) (vals : List PyVal)
    (h : borderSpacingValues v = Except.ok vals) :
    (∀ w, borderValuesOk (borderSpacingValues w) = borderShapeOK w) ∧
    (∀ a, vals = [a] →
      is_border_spacing units v = (is_length units a).map (fun x => PyVal.tuple [x])) ∧
    (∀ a b, vals = [a, b] →
      is_border_spacing units v =
        (is_length units a).bind (fun x =>
          (is_length units b).map (fun y => PyVal.tuple [x, y]))) ∧
    (vals.length ≠ 1 → vals.length ≠ 2 →
      is_border_spacing units v =
        Except.error (PyErr.validationError "Should provide 1 or 2 <length> values!")) := by
  refine ⟨?_, ?_, ?_, ?_⟩
  · intro w
    cases w <;> rfl
  · rintro a rfl
    simp only [is_border_spacing, h]
    exact catchValueError_of_onlyValidation _
      (errOnly_map _ _ (is_length_onlyValidation units a))
  · rintro a b rfl
    simp only [is_border_spacing, h]
    exact catchValueError_of_onlyValidation _
      (errOnly_bind _ _ (is_length_onlyValidation units a)
        (fun x => errOnly_map _ _ (is_length_onlyValidation units b)))
  · intro h1 h2
    simp only [is_border_spacing, h]
    match vals, h1, h2 with
    | [], _, _ => rfl
    | [a], h1, _ => exact absurd rfl h1
    | [a, b], _, h2 => exact absurd rfl h2
    | a :: b :: c :: tl, _, _ => rfl

/-- Witness for C1: the two-token string input, at the sample unit parser. -/
theorem is_border_spacing_token_rule_witness :
    borderSpacingValues (PyVal.str "1 2") = Except.ok [PyVal.str "1", PyVal.str "2"] ∧
    is_border_spacing sampleUnits (PyVal.str "1 2") =
      (is_length sampleUnits (PyVal.str "1")).bind (fun x =>
        (is_length sampleUnits (PyVal.str "2")).map (fun y => PyVal.tuple [x, y])) :=
  ⟨rfl, (is_border_spacing_token_rule sampleUnits (PyVal.str "1 2")
      [PyVal.str "1", PyVal.str "2"] rfl).2.2.1 _ _ rfl⟩

/-- C2: for `is_number` and `is_integer` the mode is selected solely by
whether bounds were given — with both bounds `None` the call validates its
value argument immediately (returning the coerced result or the raised
error), and with any bound given it returns a one-argument validator that
runs the same coercion and bound checks on a later value. -/
theorem numeric_mode_selection (v : PyVal) (mn mx : Option Frac) :
    ((is_number v mn mx).isImmediate = true ↔ (mn = Option.none ∧ mx = Option.none)) ∧
    ((is_integer v mn mx).isImmediate = true ↔ (mn = Option.none ∧ mx = Option.none)) ∧
    (mn = Option.none → mx = Option.none →
      is_number v mn mx = NumResult.immediate (_numeric_validator v NumType.float mn mx) ∧
      is_integer v mn mx = NumResult.immediate (_numeric_validator v NumType.int mn mx)) ∧
    (¬(mn = Option.none ∧ mx = Option.none) →
      (∃ f, is_number v mn mx = NumResult.validator f ∧
        ∀ w, f w = _numeric_validator w NumType.float mn mx) ∧
      (∃ g, is_integer v mn mx = NumResult.validator g ∧
        ∀ w, g w = _numeric_validator w NumType.int mn mx)) := by
  by_cases h : mn = Option.none ∧ mx = Option.none
  · refine ⟨?_, ?_, ?_, ?_⟩
    · simp [is_number, h, NumResult.isImmediate]
    · simp [is_integer, h, NumResult.isImmediate]
    · intro h1 h2
      exact ⟨by simp [is_number, h], by simp [is_integer, h]⟩
    · intro hc
      exact absurd h hc
  · refine ⟨?_, ?_, ?_, ?_⟩
    · simp [is_number, h, NumResult.isImmediate]
    · simp [is_integer, h, NumResult.isImmediate]
    · intro h1 h2
      exact absurd ⟨h1, h2⟩ h
    · intro _
      exact ⟨⟨_, by simp [is_number, h], fun w => rfl⟩, ⟨_, by simp [is_integer, h], fun w => rfl⟩⟩

/-- Witness for C2: a minimum bound puts `is_number` in factory mode. -/
theorem numeric_mode_selection_witness :
    (∃ f, is_number PyVal.none (some (Frac.ofInt 0)) Option.none = NumResult.validator f ∧
      ∀ w, f w = _numeric_validator w NumType.float (some (Frac.ofInt 0)) Option.none) ∧
    is_integer (PyVal.int 7) Option.none Option.none =
      NumResult.immediate (_numeric_validator (PyVal.int 7) NumType.int Option.none Option.none) :=
  ⟨((numeric_mode_selection PyVal.none (some (Frac.ofInt 0)) Option.none).2.2.2
      (by simp)).1,
    ((numeric_mode_selection (PyVal.int 7) Option.none Option.none).2.2.1 rfl rfl).2⟩

/-- C3: `_numeric_validator` (the engine of `is_number`/`is_integer` and of
the validators they return): a failed coercion raises `ValidationError`
naming the offending value and the target type; the bounds are inclusive —
a coerced value strictly below `min_value` raises `ValidationError` naming
the minimum, a coerced value passing the min check and strictly above
`max_value` raises `ValidationError` naming the maximum, and otherwise
(including exact equality with a bound) the coerced value is returned. -/
theorem numeric_validator_spec (v : PyVal) (nt : NumType) (mn mx : Option Frac) :
    (nt.coerce v = Option.none →
      _numeric_validator v nt mn mx = Except.error (PyErr.validationError
        ("Cannot coerce " ++ pyStr v ++ " to " ++ nt.name))) ∧
    (∀ nv, nt.coerce v = some nv →
      (∀ m, mn = some m → Frac.blt (pvFrac nv) m = true →
        _numeric_validator v nt mn mx = Except.error (PyErr.validationError
          ("Value " ++ pyStr nv ++ " below minimum value " ++ boundStr m))) ∧
      ((∀ m, mn = some m → Frac.blt (pvFrac nv) m = false) →
        ∀ m, mx = some m → Frac.blt m (pvFrac nv) = true →
          _numeric_validator v nt mn mx = Except.error (PyErr.validationError
            ("Value " ++ pyStr nv ++ " above maximum value " ++ boundStr m))) ∧
      ((∀ m, mn = some m → Frac.blt (pvFrac nv) m = false) →
        (∀ m, mx = some m → Frac.blt m (pvFrac nv) = false) →
        _numeric_validator v nt mn mx = Except.ok nv)) := by
  constructor
  · intro h
    simp [_numeric_validator, h]
  · intro nv h
    refine ⟨?_, ?_, ?_⟩
    · rintro m rfl hlt
      simp [_numeric_validator, h, Option.any, hlt, Option.getD]
    · intro hmin m hm hlt
      subst hm
      cases mn with
      | none => simp [_numeric_validator, h, Option.any, hlt, Option.getD]
      | some m0 =>
        have h0 := hmin m0 rfl
        simp [_numeric_validator, h, Option.any, h0, hlt, Option.getD]
    · intro hmin hmax
      cases mn with
      | none =>
        cases mx with
        | none => simp [_numeric_validator, h, Option.any]
        | some m1 =>
          have h1 := hmax m1 rfl
          simp [_numeric_validator, h, Option.any, h1]
      | some m0 =>
        have h0 := hmin m0 rfl
        cases mx with
        | none => simp [_numeric_validator, h, Option.any, h0]
        | some m1 =>
          have h1 := hmax m1 rfl
          simp [_numeric_validator, h, Option.any, h0, h1]

/-- Witness for C3: a failing coercion, and an in-bounds value exactly equal
to both bounds (inclusive bounds accept it). -/
theorem numeric_validator_spec_witness :
    _numeric_validator (PyVal.str "abc") NumType.float Option.none Option.none =
      Except.error (PyErr.validationError
        ("Cannot coerce " ++ pyStr (PyVal.str "abc") ++ " to " ++ NumType.name NumType.float)) ∧
    _numeric_validator (PyVal.int 5) NumType.int (some (Frac.ofInt 5)) (some (Frac.ofInt 5)) =
      Except.ok (PyVal.int 5) :=
  ⟨(numeric_validator_spec (PyVal.str "abc") NumType.float Option.none Option.none).1 rfl,
    ((numeric_validator_spec (PyVal.int 5) NumType.int
        (some (Frac.ofInt 5)) (some (Frac.ofInt 5))).2 (PyVal.int 5) rfl).2.2
      (fun m hm => by cases hm; rfl) (fun m hm => by cases hm; rfl)⟩

/-- C4: `is_percentage` succeeds exactly when `is_length` succeeds and the
parsed result is a `units.Percent` instance, returning the same parsed
value; when parsing fails it raises the same `ValidationError` as
`is_length`, and when the parse succeeds on a non-Percent unit it raises a
`ValidationError`. -/
theorem is_percentage_refines_is_length (units : PyParser) (v : PyVal) :
    (∀ e, is_length units v = Except.error e → is_percentage units v = Except.error e) ∧
    (∀ r, is_length units v = Except.ok r → r.isPercent = true →
      is_percentage units v = Except.ok r) ∧
    (∀ r, is_length units v = Except.ok r → r.isPercent = false →
      is_percentage units v = Except.error (PyErr.validationError
        ("Value " ++ pyStr r ++ " is not a Percent unit"))) := by
  cases h : units v with
  | ok r =>
    refine ⟨?_, ?_, ?_⟩
    · intro e he
      simp [is_length, h] at he
    · rintro r0 hr hp
      simp only [is_length, h] at hr
      cases hr
      simp [is_percentage, h, hp]
    · rintro r0 hr hp
      simp only [is_length, h] at hr
      cases hr
      simp [is_percentage, h, hp]
  | error msg =>
    refine ⟨?_, ?_, ?_⟩
    · intro e he
      simp only [is_length, h] at he
      cases he
      simp [is_percentage, h]
    · rintro r0 hr
      simp [is_length, h] at hr
    · rintro r0 hr
      simp [is_length, h] at hr

/-- Witness for C4: a percent value parses and passes; its `is_percentage`
result is the `is_length` result. -/
theorem is_percentage_refines_is_length_witness :
    is_percentage sampleUnits (PyVal.percent (Frac.ofInt 30)) =
      Except.ok (PyVal.percent (Frac.ofInt 30)) :=
  (is_percentage_refines_is_length sampleUnits (PyVal.percent (Frac.ofInt 30))).2.1
    (PyVal.percent (Frac.ofInt 30)) rfl rfl

/-- C5: `is_length` delegates to the unit-parser collaborator, returning its
result unchanged on success and re-raising its `ValueError` message as a
`ValidationError`. -/
theorem is_length_delegates (units : PyParser) (v : PyVal) :
    (∀ r, units v = Except.ok r → is_length units v = Except.ok r) ∧
    (∀ msg, units v = Except.error msg →
      is_length units v = Except.error (PyErr.validationError msg)) := by
  constructor
  · intro r hr
    simp [is_length, hr]
  · intro msg hmsg
    simp [is_length, hmsg]

/-- Witness for C5: the sample parser's success and failure pass through
`is_length` as described. -/
theorem is_length_delegates_witness :
    is_length sampleUnits (PyVal.int 10) = Except.ok (PyVal.px (Frac.ofInt 10)) ∧
    is_length sampleUnits PyVal.dict =
      Except.error (PyErr.validationError ("Unknown size " ++ pyStr PyVal.dict)) :=
  ⟨(is_length_delegates sampleUnits (PyVal.int 10)).1 (PyVal.px (Frac.ofInt 10)) rfl,
    (is_length_delegates sampleUnits PyVal.dict).2 ("Unknown size " ++ pyStr PyVal.dict) rfl⟩

lemma numeric_validator_onlyValidation (v : PyVal) (nt : NumType) (mn mx : Option Frac) :
    errOnlyValidation (_numeric_validator v nt mn mx) = true := by
  cases h : nt.coerce v with
  | none => simp [_numeric_validator, h, errOnlyValidation, PyErr.isValidationError]
  | some nv =>
    simp only [_numeric_validator, h]
    split
    · simp [errOnlyValidation, PyErr.isValidationError]
    · split <;> simp [errOnlyValidation, PyErr.isValidationError]

lemma is_percentage_onlyValidation (units : PyParser) (v : PyVal) :
    errOnlyValidation (is_percentage units v) = true := by
  cases h : units v with
  | ok r =>
    simp only [is_percentage, h]
    split <;> simp [errOnlyValidation, PyErr.isValidationError]
  | error msg => simp [is_percentage, h, errOnlyValidation, PyErr.isValidationError]

lemma is_color_onlyValidation (color : PyParser) (v : PyVal) :
    errOnlyValidation (is_color color v) = true := by
  cases h : color v <;> simp [is_color, h, errOnlyValidation, PyErr.isValidationError]

lemma border_shape_values_ok (v : PyVal) (h : borderShapeOK v = true) :
    ∃ vals, borderSpacingValues v = Except.ok vals := by
  cases v <;> first | exact ⟨_, rfl⟩ | simp [borderShapeOK] at h

lemma is_border_spacing_onlyValidation (units : PyParser) (v : PyVal)
    (h : borderShapeOK v = true) :
    errOnlyValidation (is_border_spacing units v) = true := by
  obtain ⟨vals, hv⟩ := border_shape_values_ok v h
  simp only [is_border_spacing, hv]
  match vals with
  | [] => rfl
  | [a] =>
    have h1 := errOnly_map (is_length units a) (fun x => PyVal.tuple [x])
      (is_length_onlyValidation units a)
    show errOnlyValidation (catchValueError
      (Except.map (fun x => PyVal.tuple [x]) (is_length units a))) = true
    rw [catchValueError_of_onlyValidation _ h1]
    exact h1
  | [a, b] =>
    have h1 := errOnly_bind (is_length units a) _ (is_length_onlyValidation units a)
      (fun x => errOnly_map (is_length units b) (fun y => PyVal.tuple [x, y])
        (is_length_onlyValidation units b))
    show errOnlyValidation (catchValueError ((is_length units a).bind (fun x =>
      Except.map (fun y => PyVal.tuple [x, y]) (is_length units b)))) = true
    rw [catchValueError_of_onlyValidation _ h1]
    exact h1
  | a :: b :: c :: tl => rfl

/-- C6: against a Choices built from validators `[is_integer, is_number,
is_length, is_percentage, is_color]`, constants `a`, `b`, `None` and the
explicit defaulting constants initial/inherit/unset/revert, the failure
message for value `invalid` on property `prop` reads exactly as the test
demands: the legal forms sorted alphabetically, validators contributing
their description tokens. -/
theorem choices_all_choices_message :
    choicesErrorMessage "prop" "invalid" (choicesValidValueTokens
      [PyVal.str "a", PyVal.str "b", PyVal.none]
      [is_integer.description, is_number.description, is_length.description,
        is_percentage.description, is_color.description]
      ["initial", "inherit", "unset", "revert"]) =
    "Invalid value 'invalid' for CSS property 'prop'; Valid values are: <color>, <integer>, <length>, <number>, <percentage>, a, b, inherit, initial, none, revert, unset" := by
  decide

/-- C7: `ValidationError` is a `ValueError` subtype, and every explicit
validation failure of the validators is a `ValidationError`: each validator
either returns a normalised value or raises `ValidationError`
(`is_border_spacing` on the input shapes it handles). -/
theorem validators_raise_only_validation_error (units color : PyParser) (v : PyVal)
    (mn mx : Option Frac) (msg : String) :
    (PyErr.validationError msg).isValueError = true ∧
    errOnlyValidation (_numeric_validator v NumType.float mn mx) = true ∧
    errOnlyValidation (_numeric_validator v NumType.int mn mx) = true ∧
    errOnlyValidation (is_length units v) = true ∧
    errOnlyValidation (is_percentage units v) = true ∧
    errOnlyValidation (is_color color v) = true ∧
    (borderShapeOK v = true → errOnlyValidation (is_border_spacing units v) = true) :=
  ⟨rfl, numeric_validator_onlyValidation v NumType.float mn mx,
    numeric_validator_onlyValidation v NumType.int mn mx,
    is_length_onlyValidation units v,
    is_percentage_onlyValidation units v,
    is_color_onlyValidation color v,
    fun h => is_border_spacing_onlyValidation units v h⟩

/-- Witness for C7 at a concrete string input and the sample parsers. -/
theorem validators_raise_only_validation_error_witness :
    borderShapeOK (PyVal.str "1") = true ∧
    errOnlyValidation (is_border_spacing sampleUnits (PyVal.str "1")) = true :=
  ⟨rfl, (validators_raise_only_validation_error sampleUnits sampleColor (PyVal.str "1")
      Option.none Option.none "m").2.2.2.2.2.2 rfl⟩

/-- C8: every validator exposes its human-readable description token. -/
theorem validator_descriptions :
    is_number.description = "<number>" ∧
    is_integer.description = "<integer>" ∧
    is_length.description = "<length>" ∧
    is_percentage.description = "<percentage>" ∧
    is_color.description = "<color>" ∧
    is_border_spacing.description = "<length> <length>?" :=
  ⟨rfl, rfl, rfl, rfl, rfl, rfl⟩

/-- C9: `is_border_spacing` is guaranteed to raise only `ValidationError`
solely under the precondition that the input is a non-string sequence, an
int/float, or a string; outside those shapes (e.g. `None` or a dict) it
falls through to `value.split()` and raises `AttributeError`, which is not a
`ValidationError`. -/
theorem is_border_spacing_requires_shape (units : PyParser) :
    (∀ v, borderShapeOK v = true → errOnlyValidation (is_border_spacing units v) = true) ∧
    is_border_spacing units PyVal.none =
      Except.error (PyErr.attributeError "'NoneType' object has no attribute 'split'") ∧
    is_border_spacing units PyVal.dict =
      Except.error (PyErr.attributeError "'dict' object has no attribute 'split'") ∧
    (∀ m, (PyErr.attributeError m).isValidationError = false) :=
  ⟨fun v h => is_border_spacing_onlyValidation units v h, rfl, rfl, fun _ => rfl⟩

/-- Witness for C9 at a concrete int input and the sample unit parser. -/
theorem is_border_spacing_requires_shape_witness :
    borderShapeOK (PyVal.int 3) = true ∧
    errOnlyValidation (is_border_spacing sampleUnits (PyVal.int 3)) = true :=
  ⟨rfl, (is_border_spacing_requires_shape sampleUnits).1 (PyVal.int 3) rfl⟩

/-- C10: in immediate mode `is_integer` accepts a float and truncates it
toward zero — `is_integer(10.7)` returns `10` — while the numerically equal
fractional string `'10.7'` is rejected with a `ValidationError`, because
`int()` on such a string raises. -/
theorem is_integer_truncates_float_rejects_fraction_string :
    is_integer (PyVal.float ⟨107, 10⟩) Option.none Option.none =
      NumResult.immediate (Except.ok (PyVal.int 10)) ∧
    is_integer (PyVal.str "10.7") Option.none Option.none =
      NumResult.immediate (Except.error
        (PyErr.validationError "Cannot coerce 10.7 to int")) := by
  constructor
  · rfl
  · have h : pyStr (PyVal.str "10.7") = "10.7" := by simp [pyStr]
    have step : is_integer (PyVal.str "10.7") Option.none Option.none =
        NumResult.immediate (Except.error (PyErr.validationError
          ("Cannot coerce " ++ pyStr (PyVal.str "10.7") ++ " to " ++ NumType.name NumType.int))) := rfl
    rw [step, h]
    have hs : ("Cannot coerce " ++ "10.7" ++ " to " ++ NumType.name NumType.int) =
        "Cannot coerce 10.7 to int" := by decide
    rw [hs]
